import Mathlib

/-!
Verification development for the msticnb notebooklet library.

The development shallowly embeds:
* the `HostSummary.run` control flow from
  `msticnb/nb/azsent/host/host_summary.py` (parameter validation, host-name
  resolution, conditional heartbeat / network / Azure-API / alert / bookmark
  fetches, result assembly);
* the notebooklet discovery, keyword index and search operations of
  `read_modules` (modelled from the specification, since that module's source
  is not part of the excerpt);
* the named-option configuration surface (`get_opt` / `set_opt`, modelled
  from the specification and its test suite).
-/

namespace Msticnb

/-! ## Keyword search engine (Query Engine / Index Builder) -/

/-- Modelled from the spec: a NotebookletDescriptor identifies one discovered
notebooklet class: its short name and its declared keyword list (terms are
stored case-normalized and trimmed by the Index Builder). -/
structure NotebookletDescriptor where
  name : String
  keywords : List String
deriving DecidableEq, Repr

/-- Tokenizer helper: walk the characters, keep alphanumeric characters
(lower-cased) and break tokens at every whitespace or punctuation
character. `acc` holds the current token's characters in reverse. -/
def tokenizeAux : List Char → List Char → List String
  | [], acc => if acc.isEmpty then [] else [String.mk acc.reverse]
  | c :: rest, acc =>
    if c.isAlphanum then tokenizeAux rest (c.toLower :: acc)
    else if acc.isEmpty then tokenizeAux rest []
    else String.mk acc.reverse :: tokenizeAux rest []

/-- Modelled from the spec: query/term normalization used by both the Index
Builder and the Query Engine — the string is split on whitespace and
punctuation into individual terms, each lower-cased; empty tokens are
dropped. (`read_modules` is not part of the source excerpt.) -/
def normalizeTokens (s : String) : List String :=
  tokenizeAux s.toList []

/-- Modelled from the spec: `match_terms(descriptor, term_string)` returns
whether any term matched and how many did — each normalized term of the
search string that appears among the descriptor's declared keywords
contributes one match-count increment. -/
def match_terms (desc : NotebookletDescriptor) (search : String) : Bool × Nat :=
  let terms := normalizeTokens search
  let count := (terms.filter fun t => decide (t ∈ desc.keywords)).length
  (decide (0 < count), count)

/-- Modelled from the spec: the descriptor of the `HostSummary` notebooklet;
the spec records that `host`, `linux`, `azure` and `windows` are all among
its declared keyword terms. -/
def hostSummaryDescriptor : NotebookletDescriptor :=
  { name := "HostSummary", keywords := ["host", "windows", "linux", "azure"] }

/-- The deterministic ordering rule on search results: match_count
descending, ties broken by descriptor name ascending. -/
def searchRel (a b : NotebookletDescriptor × Nat) : Prop :=
  b.2 < a.2 ∨ (a.2 = b.2 ∧ a.1.name ≤ b.1.name)

instance : DecidableRel searchRel := fun a b => by
  unfold searchRel; infer_instance

instance : IsTotal (NotebookletDescriptor × Nat) searchRel := by
  constructor
  intro a b
  rcases Nat.lt_trichotomy a.2 b.2 with h | h | h
  · exact Or.inr (Or.inl h)
  · rcases le_total a.1.name b.1.name with hn | hn
    · exact Or.inl (Or.inr ⟨h, hn⟩)
    · exact Or.inr (Or.inr ⟨h.symm, hn⟩)
  · exact Or.inl (Or.inl h)

instance : IsTrans (NotebookletDescriptor × Nat) searchRel := by
  constructor
  intro a b c hab hbc
  rcases hab with hab | ⟨hab, han⟩
  · rcases hbc with hbc | ⟨hbc, _⟩
    · exact Or.inl (hbc.trans hab)
    · exact Or.inl (hbc ▸ hab)
  · rcases hbc with hbc | ⟨hbc, hbn⟩
    · exact Or.inl (hab ▸ hbc)
    · exact Or.inr ⟨hab.trans hbc, han.trans hbn⟩

/-- Modelled from the spec: `find(query_string)` — tokenize the query,
give every registry descriptor one match-count increment per matching
term, keep only descriptors with match_count ≥ 1, and sort by the
deterministic rule (match_count descending, name ascending on ties). -/
def find (registry : List NotebookletDescriptor) (query : String) :
    List (NotebookletDescriptor × Nat) :=
  let scored := registry.map fun d => (d, (match_terms d query).2)
  let hits := scored.filter fun p => decide (1 ≤ p.2)
  List.insertionSort searchRel hits

/-! ## Module scanner / discovery (modelled from the spec) -/

/-- Modelled from the spec: a class seen by the Module Scanner — its name and
the name of its direct superclass, if any. The table of all such classes
stands in for the Python class hierarchy. -/
structure ScannedClass where
  name : String
  parent : Option String
deriving DecidableEq, Repr

/-- Modelled from the spec: a module visited by the Module Scanner, with the
names of the classes defined within it (not merely imported into it). -/
structure ScannedModule where
  name : String
  definedClasses : List String
deriving DecidableEq, Repr

/-- Look up the direct superclass of a class name in the class table. -/
def lookupParent (table : List ScannedClass) (c : String) : Option String :=
  match table.find? (fun sc => decide (sc.name = c)) with
  | some sc => sc.parent
  | none => none

/-- Proper ancestors of a class: walk the superclass chain, with fuel
bounding the walk by the table size. -/
def ancestorsAux (table : List ScannedClass) : Nat → String → List String
  | 0, _ => []
  | fuel + 1, c =>
    match lookupParent table c with
    | some p => p :: ancestorsAux table fuel p
    | none => []

/-- All proper ancestors (direct and transitive superclasses) of a class. -/
def ancestors (table : List ScannedClass) (c : String) : List String :=
  ancestorsAux table table.length c

/-- A class is a strict subclass of `base` when `base` appears among its
proper ancestors. -/
def isStrictSubclass (table : List ScannedClass) (c base : String) : Bool :=
  decide (base ∈ ancestors table c)

/-- Modelled from the spec: `discover_modules` — scan every module, keep the
classes defined within it that are direct or transitive subclasses of the
base notebooklet type and are not the base class itself, and emit
(qualified_name, class) pairs. (`read_modules` is not part of the source
excerpt.) -/
def discover_modules (table : List ScannedClass) (modules : List ScannedModule)
    (base : String) : List (String × String) :=
  modules.flatMap fun m =>
    (m.definedClasses.filter fun c =>
        isStrictSubclass table c base && decide (c ≠ base)).map
      fun c => (m.name ++ "." ++ c, c)

/-! ## Option configuration surface (modelled from the spec) -/

/-- Modelled from the spec: the known named options of the configuration
surface (verbosity, debug, silence) with their boolean values. -/
structure NBOptionState where
  verbose : Bool
  debug : Bool
  silent : Bool
deriving DecidableEq, Repr

/-- A lookup failure on an unknown option name (Python `KeyError`). -/
inductive OptionError where
  | keyError (name : String)
deriving DecidableEq, Repr

/-- Modelled from the spec: `get_opt(name)` — return the value of a known
option, fail with a lookup error for an unknown option name. (The `options`
module is not part of the source excerpt.) -/
def get_opt (st : NBOptionState) (name : String) : Except OptionError Bool :=
  if name = "verbose" then .ok st.verbose
  else if name = "debug" then .ok st.debug
  else if name = "silent" then .ok st.silent
  else .error (.keyError name)

/-- Modelled from the spec: `set_opt(name, value)` — update a known option,
fail with a lookup error for an unknown option name; the pair carries the
call outcome and the resulting option state. -/
def set_opt (st : NBOptionState) (name : String) (value : Bool) :
    Except OptionError Unit × NBOptionState :=
  if name = "verbose" then (.ok (), { st with verbose := value })
  else if name = "debug" then (.ok (), { st with debug := value })
  else if name = "silent" then (.ok (), { st with silent := value })
  else (.error (.keyError name), st)

/-! ## HostSummary notebooklet (embedded from host_summary.py) -/

/-- A time range bounding queries (msticpy `TimeSpan`); its contents are
opaque to `HostSummary.run`. -/
structure TimeSpan where
  start : Int
  finish : Int
deriving DecidableEq, Repr

/-- A tabular query result (pandas DataFrame), abstracted to its row
labels; `len` is the number of rows. -/
structure DataFrame where
  rows : List String
deriving DecidableEq, Repr

/-- The raw Azure resource-details record returned by
`az_cli.get_resource_details` (the fields `_azure_api_details` reads). -/
structure RawResourceDetails where
  location : String
  vmSize : String
  imageOffer : String
  imageSku : String
  dataDisks : List String
  networkInterfaces : List String
  adminUsername : String
  tags : String
deriving DecidableEq, Repr

/-- The extracted resource-details record that `_azure_api_details` builds
from the raw API response. -/
structure ResourceDetails where
  azureLocation : String
  vmSize : String
  image : String
  disks : List String
  adminUser : String
  networkInterfaces : List String
  tags : String
deriving DecidableEq, Repr

/-- The `AzureDetails` attribute of a host entity: the identifiers the API
calls consume, and the two detail fields `run` may populate. -/
structure AzureDetails where
  subscriptionId : String
  resourceId : String
  resourceDetails : Option ResourceDetails
  subscriptionDetails : Option String
deriving DecidableEq, Repr

/-- A host entity (`msticpy.datamodel.entities.Host`): host name, optional
`Environment` attribute, and Azure details. -/
structure Host where
  hostName : String
  environment : Option String
  azureDetails : AzureDetails
deriving DecidableEq, Repr

/-- `entities.Host(HostName=host_name)`: a fresh host entity with only the
host name set. -/
def freshHost (hostName : String) : Host :=
  { hostName := hostName, environment := none,
    azureDetails := { subscriptionId := "", resourceId := "",
                      resourceDetails := none, subscriptionDetails := none } }

/-- An error raised by the cloud resource API
(`azure.common.exceptions.CloudError`). -/
inductive CloudError where
  | cloudError (msg : String)
deriving DecidableEq, Repr

/-- The cloud resource API collaborator (the `azuredata` provider): both
operations may raise `CloudError`. -/
structure AzCli where
  getSubscriptionInfo : String → Except CloudError String
  getResourceDetails : String → String → Except CloudError RawResourceDetails

/-- Embeds `_azure_api_details(az_cli, host_record)`: fetch subscription
info and resource details; any `CloudError` raised in the body is caught
and turns the whole call into `None`. -/
def azure_api_details (azCli : AzCli) (hostRecord : Host) :
    Option (ResourceDetails × String) :=
  match azCli.getSubscriptionInfo hostRecord.azureDetails.subscriptionId with
  | .error _ => none
  | .ok subDetails =>
    match azCli.getResourceDetails hostRecord.azureDetails.resourceId
        hostRecord.azureDetails.subscriptionId with
    | .error _ => none
    | .ok raw =>
      some ({ azureLocation := raw.location,
              vmSize := raw.vmSize,
              image := raw.imageOffer ++ " " ++ raw.imageSku,
              disks := raw.dataDisks,
              adminUser := raw.adminUsername,
              networkInterfaces := raw.networkInterfaces,
              tags := raw.tags }, subDetails)

/-- An opaque Bokeh timeline plot produced by the display collaborator. -/
structure Timeline where
  tag : Nat
deriving DecidableEq, Repr

/-- The outcome of `verify_host_name`: a list of candidate names when the
resolution is ambiguous, and the resolved name otherwise (possibly absent). -/
structure HostVerif where
  host_names : List String
  host_name : Option String
deriving DecidableEq, Repr

/-- Python truthiness of an optional string: `not value` holds for an
absent value and for the empty string. -/
def optStrFalsy : Option String → Bool
  | none => true
  | some s => s.isEmpty

/-- A data fetch issued through a collaborator during `run`. -/
inductive FetchEvent where
  | verifyHostName (value : String)
  | heartbeat (hostName : String)
  | aznetTopology (hostName : String)
  | azureApi
  | relatedAlerts (hostName : String)
  | bookmarks (hostName : String)
deriving DecidableEq, Repr

/-- The injected collaborators a `HostSummary.run` call consumes: the
host-name verification outcome, the heartbeat / network-topology helpers,
the optional cloud API provider, the two queries, and the timeline
renderer. -/
structure Collaborators where
  verifyHostName : HostVerif
  getHeartbeat : Option Host
  aznetTopology : Host → Host
  hasAzureData : Bool
  azCli : AzCli
  listRelatedAlerts : DataFrame
  listBookmarksForEntity : DataFrame
  displayTimeline : DataFrame → Timeline

/-- The arguments and ambient state of one `HostSummary.run` call:
`value` and `timespan` as passed, the resolved option set, the silent
flag, the class metadata description, and the collaborators. -/
structure RunInput where
  value : Option String
  timespan : Option TimeSpan
  options : List String
  silent : Bool
  metadataDescription : String
  collab : Collaborators

/-- The `HostSummaryResult` container: every field starts out unset
(`None`) and is only assigned by the corresponding step of `run`. -/
structure HostSummaryResult where
  description : Option String
  timespan : Option TimeSpan
  host_entity : Option Host
  related_alerts : Option DataFrame
  alert_timeline : Option Timeline
  related_bookmarks : Option DataFrame

/-- An exception escaping `run`. -/
inductive RunError where
  | missingParameter (name : String)
  | typeError (msg : String)

/-- What a `run` call produces: the returned result or the escaping
exception, the data fetches issued, and the messages written to the
notebook output stream. -/
structure RunOutput where
  result : Except RunError HostSummaryResult
  fetches : List FetchEvent
  output : List String

/-- The freshly created result object
(`HostSummaryResult(notebooklet=self, description=..., timespan=...)`). -/
def emptyResult (inp : RunInput) : HostSummaryResult :=
  { description := some inp.metadataDescription, timespan := inp.timespan,
    host_entity := none, related_alerts := none, alert_timeline := none,
    related_bookmarks := none }

/-- The abort message written when host-name resolution is ambiguous. -/
def ambiguousMsg (value : String) : String :=
  "Could not obtain unique host name from " ++ value ++ ". Aborting."

/-- The warning written when no event records were found for the host. -/
def unresolvedMsg (value : String) : String :=
  "Could not find event records for host " ++ value ++
    ". Results may be unreliable."

/-- The messages `_get_related_alerts` writes after the query returns. -/
def relatedAlertsMsg (df : DataFrame) : List String :=
  if df.rows.isEmpty then ["No related alerts found."]
  else ["Found " ++ toString df.rows.length ++ " related alerts (" ++
    toString df.rows.dedup.length ++ ") types"]

/-- The messages `_get_related_bookmarks` writes (the `nb_data_wait` line
and the count summary). -/
def bookmarksMsgs (df : DataFrame) : List String :=
  "Getting data from Bookmarks" ::
    (if df.rows.isEmpty then ["No bookmarks found."]
     else [toString df.rows.length ++
       " investigation bookmarks found for this host."])

/-- What `_show_host_entity` / `nb_print` writes for the host entity. -/
def showHostEntityOut : Option Host → String
  | some h => "Host: " ++ h.hostName
  | none => "None"

/-- Embeds `_show_alert_timeline`: a timeline is produced only for more
than one alert; one or zero alerts give `None` plus an explanatory
message. -/
def showAlertTimeline (display : DataFrame → Timeline)
    (relatedAlerts : DataFrame) : Option Timeline × List String :=
  if 1 < relatedAlerts.rows.length then (some (display relatedAlerts), [])
  else if relatedAlerts.rows.length = 1 then
    (none, ["A single alert cannot be plotted on a timeline."])
  else (none, ["No alerts available to be plotted."])

/-- Update a host entity's `AzureDetails` with the fetched resource and
subscription details (the two assignments in `run`). -/
def setAzureDetails (h : Host) (rd : ResourceDetails) (sd : String) : Host :=
  { h with azureDetails := { h.azureDetails with
      resourceDetails := some rd,
      subscriptionDetails := some sd } }

/-- The `"alerts"` option step of `run`: fetch related alerts, assign the
timeline only when the table is non-empty, and store the table. Returns
the updated result, the fetches issued and the messages written. -/
def alertsStage (inp : RunInput) (hostName : String)
    (r : HostSummaryResult) :
    HostSummaryResult × List FetchEvent × List String :=
  if "alerts" ∈ inp.options then
    let df := inp.collab.listRelatedAlerts
    let tlOut :=
      if 0 < df.rows.length then
        showAlertTimeline inp.collab.displayTimeline df
      else (r.alert_timeline, [])
    ({ r with alert_timeline := tlOut.1, related_alerts := some df },
      [FetchEvent.relatedAlerts hostName],
      relatedAlertsMsg df ++ tlOut.2)
  else (r, [], [])

/-- The `"bookmarks"` option step of `run`: fetch and store related
bookmarks. -/
def bookmarksStage (inp : RunInput) (hostName : String)
    (r : HostSummaryResult) :
    HostSummaryResult × List FetchEvent × List String :=
  if "bookmarks" ∈ inp.options then
    let df := inp.collab.listBookmarksForEntity
    ({ r with related_bookmarks := some df },
      [FetchEvent.bookmarks hostName], bookmarksMsgs df)
  else (r, [], [])

/-- The tail of `run` after the conditional entity enrichment: assign
`result.host_entity`, display the entity unless silent, and execute the
alerts and bookmarks steps. -/
def finishRun (inp : RunInput) (hostEntity : Option Host) (hostName : String)
    (fetches : List FetchEvent) (outp : List String) : RunOutput :=
  let r1 := { emptyResult inp with host_entity := hostEntity }
  let outp1 :=
    if inp.silent then outp else outp ++ [showHostEntityOut hostEntity]
  let a := alertsStage inp hostName r1
  let b := bookmarksStage inp hostName a.1
  { result := .ok b.1,
    fetches := fetches ++ a.2.1 ++ b.2.1,
    output := outp1 ++ a.2.2 ++ b.2.2 }

/-- Embeds `HostSummary.run`: validate `value` and `timespan`, resolve the
host name (aborting on an ambiguous resolution, warning on an unresolved
one), conditionally enrich the host entity (heartbeat, Azure network
topology, Azure API details — `CloudError` degrades to no details), then
assign the result fields and run the alerts and bookmarks steps. -/
def hostSummaryRun (inp : RunInput) : RunOutput :=
  if optStrFalsy inp.value then
    { result := .error (.missingParameter "value"), fetches := [],
      output := [] }
  else if inp.timespan = none then
    { result := .error (.missingParameter "timespan."), fetches := [],
      output := [] }
  else
    let value := inp.value.getD ""
    let hv := inp.collab.verifyHostName
    if hv.host_names ≠ [] then
      { result := .ok (emptyResult inp),
        fetches := [.verifyHostName value],
        output := [ambiguousMsg value] }
    else
      let hostName :=
        if optStrFalsy hv.host_name then value else hv.host_name.getD ""
      let warnOut : List String :=
        if optStrFalsy hv.host_name then [unresolvedMsg value] else []
      let he1 : Option Host × List FetchEvent :=
        if "heartbeat" ∈ inp.options then
          (inp.collab.getHeartbeat, [.heartbeat hostName])
        else (some (freshHost hostName), [])
      let he2 : Option Host × List FetchEvent :=
        if "azure_net" ∈ inp.options then
          (some (inp.collab.aznetTopology (he1.1.getD (freshHost hostName))),
            he1.2 ++ [.aznetTopology hostName])
        else he1
      if "azure_api" ∈ inp.options ∧ inp.collab.hasAzureData = true then
        match he2.1 with
        | none =>
          { result := .error (.typeError
              "argument of type NoneType is not iterable"),
            fetches := FetchEvent.verifyHostName value :: he2.2,
            output := warnOut }
        | some he =>
          if he.environment = some "Azure" then
            match azure_api_details inp.collab.azCli he with
            | some details =>
              finishRun inp (some (setAzureDetails he details.1 details.2))
                hostName
                (FetchEvent.verifyHostName value :: he2.2 ++ [.azureApi])
                warnOut
            | none =>
              finishRun inp (some he) hostName
                (FetchEvent.verifyHostName value :: he2.2 ++ [.azureApi])
                warnOut
          else
            finishRun inp (some he) hostName
              (FetchEvent.verifyHostName value :: he2.2) warnOut
      else
        finishRun inp he2.1 hostName
          (FetchEvent.verifyHostName value :: he2.2) warnOut

/-! ## Sample collaborators used by the concrete witnesses -/

/-- A successful raw resource-details response. -/
def sampleRawResource : RawResourceDetails :=
  { location := "eastus", vmSize := "D2", imageOffer := "UbuntuServer",
    imageSku := "18.04", dataDisks := ["disk0"],
    networkInterfaces := ["nic0"], adminUsername := "azadmin", tags := "{}" }

/-- A cloud API client whose calls succeed. -/
def sampleAzCliOk : AzCli :=
  { getSubscriptionInfo := fun _ => .ok "sub-info",
    getResourceDetails := fun _ _ => .ok sampleRawResource }

/-- A cloud API client whose calls raise `CloudError`. -/
def sampleAzCliErr : AzCli :=
  { getSubscriptionInfo := fun _ => .error (.cloudError "403"),
    getResourceDetails := fun _ _ => .error (.cloudError "403") }

/-- Build a collaborator set for the witnesses. -/
def sampleCollab (hv : HostVerif) (alerts bookmarks : DataFrame)
    (azCli : AzCli) (hb : Option Host) : Collaborators :=
  { verifyHostName := hv, getHeartbeat := hb, aznetTopology := id,
    hasAzureData := true, azCli := azCli, listRelatedAlerts := alerts,
    listBookmarksForEntity := bookmarks,
    displayTimeline := fun _ => ⟨0⟩ }

/-- A run input with the `value` argument absent. -/
def inputMissingValue : RunInput :=
  { value := none, timespan := some ⟨0, 1⟩, options := [], silent := true,
    metadataDescription := "Host summary",
    collab := sampleCollab ⟨[], some "host1"⟩ ⟨[]⟩ ⟨[]⟩ sampleAzCliOk none }

/-- A run input whose host-name resolution is ambiguous. -/
def inputAmbiguous : RunInput :=
  { value := some "myhost", timespan := some ⟨0, 1⟩, options := ["alerts"],
    silent := true, metadataDescription := "Host summary",
    collab := sampleCollab ⟨["myhost1", "myhost2"], none⟩ ⟨[]⟩ ⟨[]⟩
      sampleAzCliOk none }

/-- An Azure-environment host entity with no detail fields populated. -/
def sampleAzureHost : Host :=
  { hostName := "myhost", environment := some "Azure",
    azureDetails := { subscriptionId := "sub-1", resourceId := "res-1",
                      resourceDetails := none,
                      subscriptionDetails := none } }

/-- A run input requesting the Azure API details with a failing cloud API. -/
def inputCloudError : RunInput :=
  { value := some "myhost", timespan := some ⟨0, 1⟩,
    options := ["heartbeat", "azure_api"], silent := true,
    metadataDescription := "Host summary",
    collab := sampleCollab ⟨[], some "myhost"⟩ ⟨["a1", "a2"]⟩ ⟨[]⟩
      sampleAzCliErr (some sampleAzureHost) }

/-- A run input whose host name is unresolved but unambiguous. -/
def inputUnresolved : RunInput :=
  { value := some "myhost", timespan := some ⟨0, 1⟩,
    options := ["alerts", "bookmarks"], silent := true,
    metadataDescription := "Host summary",
    collab := sampleCollab ⟨[], none⟩ ⟨["a1", "a2"]⟩ ⟨["b1"]⟩
      sampleAzCliOk none }

/-- A run input with the alerts option and a single-row alert table. -/
def inputOneAlert : RunInput :=
  { value := some "myhost", timespan := some ⟨0, 1⟩, options := ["alerts"],
    silent := true, metadataDescription := "Host summary",
    collab := sampleCollab ⟨[], some "myhost"⟩ ⟨["a1"]⟩ ⟨[]⟩
      sampleAzCliOk none }

/-! ## Theorems -/

theorem alertsStage_fst_host_entity (inp : RunInput) (hostName : String)
    (r : HostSummaryResult) :
    (alertsStage inp hostName r).1.host_entity = r.host_entity := by
  simp only [alertsStage]
  split <;> rfl

theorem bookmarksStage_fst_host_entity (inp : RunInput) (hostName : String)
    (r : HostSummaryResult) :
    (bookmarksStage inp hostName r).1.host_entity = r.host_entity := by
  simp only [bookmarksStage]
  split <;> rfl

theorem bookmarksStage_fst_alert_timeline (inp : RunInput) (hostName : String)
    (r : HostSummaryResult) :
    (bookmarksStage inp hostName r).1.alert_timeline = r.alert_timeline := by
  simp only [bookmarksStage]
  split <;> rfl

theorem bookmarksStage_fst_related_alerts (inp : RunInput) (hostName : String)
    (r : HostSummaryResult) :
    (bookmarksStage inp hostName r).1.related_alerts = r.related_alerts := by
  simp only [bookmarksStage]
  split <;> rfl

theorem alertsStage_fst_related_alerts_of_mem (inp : RunInput)
    (hostName : String) (r : HostSummaryResult)
    (h : "alerts" ∈ inp.options) :
    (alertsStage inp hostName r).1.related_alerts =
      some inp.collab.listRelatedAlerts := by
  simp only [alertsStage, if_pos h]

theorem alertsStage_snd_of_mem (inp : RunInput) (hostName : String)
    (r : HostSummaryResult) (h : "alerts" ∈ inp.options) :
    (alertsStage inp hostName r).2.1 = [FetchEvent.relatedAlerts hostName] := by
  simp only [alertsStage, if_pos h]

theorem alertsStage_fst_alert_timeline_of_mem (inp : RunInput)
    (hostName : String) (r : HostSummaryResult)
    (h : "alerts" ∈ inp.options) (hr : r.alert_timeline = none) :
    (alertsStage inp hostName r).1.alert_timeline =
      if 1 < inp.collab.listRelatedAlerts.rows.length then
        some (inp.collab.displayTimeline inp.collab.listRelatedAlerts)
      else none := by
  simp only [alertsStage, if_pos h, showAlertTimeline]
  by_cases h1 : 1 < inp.collab.listRelatedAlerts.rows.length
  · have h0 : 0 < inp.collab.listRelatedAlerts.rows.length := by omega
    simp [h0, h1]
  · by_cases he : inp.collab.listRelatedAlerts.rows.length = 1
    · simp [he]
    · have h0 : inp.collab.listRelatedAlerts.rows.length = 0 := by omega
      simp [h0, hr]

theorem bookmarksStage_fst_related_bookmarks_of_mem (inp : RunInput)
    (hostName : String) (r : HostSummaryResult)
    (h : "bookmarks" ∈ inp.options) :
    (bookmarksStage inp hostName r).1.related_bookmarks =
      some inp.collab.listBookmarksForEntity := by
  simp only [bookmarksStage, if_pos h]

theorem bookmarksStage_snd_of_mem (inp : RunInput) (hostName : String)
    (r : HostSummaryResult) (h : "bookmarks" ∈ inp.options) :
    (bookmarksStage inp hostName r).2.1 = [FetchEvent.bookmarks hostName] := by
  simp only [bookmarksStage, if_pos h]

theorem finishRun_result (inp : RunInput) (he : Option Host)
    (hostName : String) (f : List FetchEvent) (o : List String) :
    (finishRun inp he hostName f o).result =
      .ok (bookmarksStage inp hostName
        (alertsStage inp hostName
          { emptyResult inp with host_entity := he }).1).1 := rfl

theorem finishRun_fetches (inp : RunInput) (he : Option Host)
    (hostName : String) (f : List FetchEvent) (o : List String) :
    (finishRun inp he hostName f o).fetches =
      f ++ (alertsStage inp hostName
          { emptyResult inp with host_entity := he }).2.1 ++
        (bookmarksStage inp hostName
          (alertsStage inp hostName
            { emptyResult inp with host_entity := he }).1).2.1 := rfl

theorem finishRun_output_mem (inp : RunInput) (he : Option Host)
    (hostName : String) (f : List FetchEvent) (o : List String)
    (m : String) (hm : m ∈ o) :
    m ∈ (finishRun inp he hostName f o).output := by
  simp only [finishRun]
  apply List.mem_append_left
  apply List.mem_append_left
  split
  · exact hm
  · exact List.mem_append_left _ hm

theorem finishRun_host_entity (inp : RunInput) (he : Option Host)
    (hostName : String) (f : List FetchEvent) (o : List String) :
    ∃ r, (finishRun inp he hostName f o).result = .ok r ∧
      r.host_entity = he := by
  refine ⟨_, finishRun_result inp he hostName f o, ?_⟩
  rw [bookmarksStage_fst_host_entity, alertsStage_fst_host_entity]

theorem finishRun_alerts_fields (inp : RunInput) (he : Option Host)
    (hostName : String) (f : List FetchEvent) (o : List String)
    (halerts : "alerts" ∈ inp.options) :
    ∃ r, (finishRun inp he hostName f o).result = .ok r ∧
      r.host_entity = he ∧
      r.related_alerts = some inp.collab.listRelatedAlerts ∧
      (r.alert_timeline.isSome = true ↔
        1 < inp.collab.listRelatedAlerts.rows.length) ∧
      (inp.collab.listRelatedAlerts.rows.length = 1 →
        r.alert_timeline = none) ∧
      (inp.collab.listRelatedAlerts.rows.length = 0 →
        r.alert_timeline = none) := by
  refine ⟨_, finishRun_result inp he hostName f o, ?_, ?_, ?_, ?_, ?_⟩
  · rw [bookmarksStage_fst_host_entity, alertsStage_fst_host_entity]
  · rw [bookmarksStage_fst_related_alerts,
      alertsStage_fst_related_alerts_of_mem _ _ _ halerts]
  · rw [bookmarksStage_fst_alert_timeline,
      alertsStage_fst_alert_timeline_of_mem _ _ _ halerts rfl]
    by_cases h1 : 1 < inp.collab.listRelatedAlerts.rows.length
    · simp [h1]
    · simp [h1]
  · intro h1
    rw [bookmarksStage_fst_alert_timeline,
      alertsStage_fst_alert_timeline_of_mem _ _ _ halerts rfl]
    rw [if_neg (by omega)]
  · intro h1
    rw [bookmarksStage_fst_alert_timeline,
      alertsStage_fst_alert_timeline_of_mem _ _ _ halerts rfl]
    rw [if_neg (by omega)]

theorem ambiguousMsg_ne_blank (v : String) : ambiguousMsg v ≠ "" := by
  intro h
  have h2 := congrArg String.length h
  rw [ambiguousMsg] at h2
  simp only [String.length_append] at h2
  have hA : ("Could not obtain unique host name from ").length = 39 := rfl
  have hB : (". Aborting.").length = 11 := rfl
  have hE : ("" : String).length = 0 := rfl
  omega

/-- C1: a `HostSummary.run` call whose required `value` argument is
absent/falsy or whose required `timespan` argument is absent fails with a
MissingParameter error and issues no data fetch at all. -/
theorem run_missing_parameter (inp : RunInput)
    (h : optStrFalsy inp.value = true ∨ inp.timespan = none) :
    (∃ name, (hostSummaryRun inp).result =
      .error (.missingParameter name)) ∧
    (hostSummaryRun inp).fetches = [] := by
  by_cases hval : optStrFalsy inp.value = true
  · exact ⟨⟨"value", by simp [hostSummaryRun, hval]⟩,
      by simp [hostSummaryRun, hval]⟩
  · have hval' : optStrFalsy inp.value = false := by
      simpa using hval
    have hts : inp.timespan = none := by
      rcases h with h | h
      · exact absurd h hval
      · exact h
    exact ⟨⟨"timespan.", by simp [hostSummaryRun, hval', hts]⟩,
      by simp [hostSummaryRun, hval', hts]⟩

/-- C1 witness: running with `value` absent fails with MissingParameter and
issues no fetch. -/
theorem run_missing_parameter_witness :
    (optStrFalsy inputMissingValue.value = true ∨
      inputMissingValue.timespan = none) ∧
    ((∃ name, (hostSummaryRun inputMissingValue).result =
      .error (.missingParameter name)) ∧
    (hostSummaryRun inputMissingValue).fetches = []) :=
  ⟨Or.inl rfl, run_missing_parameter inputMissingValue (Or.inl rfl)⟩

/-- C2: a `HostSummary.run` call whose host-name resolution is ambiguous
returns normally with a result whose `host_entity` field is unset and a
non-empty description, writes a non-empty explanatory message, and issues
no fetch beyond the verification itself. -/
theorem run_ambiguous_host (inp : RunInput)
    (hval : optStrFalsy inp.value = false)
    (hts : inp.timespan ≠ none)
    (hamb : inp.collab.verifyHostName.host_names ≠ [])
    (hdesc : inp.metadataDescription ≠ "") :
    (∃ r, (hostSummaryRun inp).result = .ok r ∧
      r.host_entity = none ∧
      r.description = some inp.metadataDescription ∧
      r.description ≠ some "") ∧
    (hostSummaryRun inp).output = [ambiguousMsg (inp.value.getD "")] ∧
    ambiguousMsg (inp.value.getD "") ≠ "" ∧
    (hostSummaryRun inp).fetches =
      [FetchEvent.verifyHostName (inp.value.getD "")] := by
  have hrun : hostSummaryRun inp =
      { result := .ok (emptyResult inp),
        fetches := [.verifyHostName (inp.value.getD "")],
        output := [ambiguousMsg (inp.value.getD "")] } := by
    simp [hostSummaryRun, hval, hts, hamb]
  refine ⟨⟨emptyResult inp, ?_, rfl, rfl, ?_⟩, ?_, ?_, ?_⟩
  · rw [hrun]
  · simp [emptyResult]
    intro hcon
    exact hdesc hcon
  · rw [hrun]
  · exact ambiguousMsg_ne_blank _
  · rw [hrun]

/-- C2 witness: a concrete ambiguous resolution returns a partial result
with no host entity and an explanatory message, with only the verification
fetch issued. -/
theorem run_ambiguous_host_witness :
    (∃ r, (hostSummaryRun inputAmbiguous).result = .ok r ∧
      r.host_entity = none ∧
      r.description = some inputAmbiguous.metadataDescription ∧
      r.description ≠ some "") ∧
    (hostSummaryRun inputAmbiguous).output =
      [ambiguousMsg (inputAmbiguous.value.getD "")] ∧
    ambiguousMsg (inputAmbiguous.value.getD "") ≠ "" ∧
    (hostSummaryRun inputAmbiguous).fetches =
      [FetchEvent.verifyHostName (inputAmbiguous.value.getD "")] :=
  run_ambiguous_host inputAmbiguous rfl (by decide) (by decide) (by decide)

/-- C3: with the azure_api option requested and the cloud API raising a
`CloudError` during the azure-details fetch, the error is caught
(`_azure_api_details` returns `None`), the AzureDetails resource and
subscription detail fields stay unset, and `run` completes and returns a
result. -/
theorem run_cloud_error_degrades (inp : RunInput) (h0 : Host)
    (hval : optStrFalsy inp.value = false)
    (hts : inp.timespan ≠ none)
    (hnoamb : inp.collab.verifyHostName.host_names = [])
    (hhb : "heartbeat" ∈ inp.options)
    (hhbres : inp.collab.getHeartbeat = some h0)
    (hnet : "azure_net" ∉ inp.options)
    (henv : h0.environment = some "Azure")
    (hapi : "azure_api" ∈ inp.options)
    (hprov : inp.collab.hasAzureData = true)
    (hcloud : (∃ e, inp.collab.azCli.getSubscriptionInfo
        h0.azureDetails.subscriptionId = .error e) ∨
      (∃ e, inp.collab.azCli.getResourceDetails h0.azureDetails.resourceId
        h0.azureDetails.subscriptionId = .error e))
    (hrd : h0.azureDetails.resourceDetails = none)
    (hsd : h0.azureDetails.subscriptionDetails = none) :
    azure_api_details inp.collab.azCli h0 = none ∧
    ∃ r, (hostSummaryRun inp).result = .ok r ∧
      r.host_entity = some h0 ∧
      h0.azureDetails.resourceDetails = none ∧
      h0.azureDetails.subscriptionDetails = none ∧
      FetchEvent.azureApi ∈ (hostSummaryRun inp).fetches := by
  have part1 : azure_api_details inp.collab.azCli h0 = none := by
    rcases hcloud with ⟨e, he⟩ | ⟨e, he⟩
    · simp [azure_api_details, he]
    · cases hsub : inp.collab.azCli.getSubscriptionInfo
        h0.azureDetails.subscriptionId with
      | error e2 => simp [azure_api_details, hsub]
      | ok s => simp [azure_api_details, hsub, he]
  refine ⟨part1, ?_⟩
  by_cases hres : optStrFalsy inp.collab.verifyHostName.host_name = true
  · have hrun : hostSummaryRun inp =
        finishRun inp (some h0) (inp.value.getD "")
          [FetchEvent.verifyHostName (inp.value.getD ""),
            FetchEvent.heartbeat (inp.value.getD ""), FetchEvent.azureApi]
          [unresolvedMsg (inp.value.getD "")] := by
      simp [hostSummaryRun, hval, hts, hnoamb, hres, hhb, hhbres, hnet,
        henv, hapi, hprov, part1]
    obtain ⟨r, hr, hhe⟩ :=
      finishRun_host_entity inp (some h0) (inp.value.getD "") _ _
    refine ⟨r, by rw [hrun]; exact hr, hhe, hrd, hsd, ?_⟩
    rw [hrun, finishRun_fetches]
    simp
  · have hres' : optStrFalsy inp.collab.verifyHostName.host_name = false := by
      simpa using hres
    have hrun : hostSummaryRun inp =
        finishRun inp (some h0)
          (inp.collab.verifyHostName.host_name.getD "")
          [FetchEvent.verifyHostName (inp.value.getD ""),
            FetchEvent.heartbeat
              (inp.collab.verifyHostName.host_name.getD ""),
            FetchEvent.azureApi]
          [] := by
      simp [hostSummaryRun, hval, hts, hnoamb, hres', hhb, hhbres, hnet,
        henv, hapi, hprov, part1]
    obtain ⟨r, hr, hhe⟩ :=
      finishRun_host_entity inp (some h0)
        (inp.collab.verifyHostName.host_name.getD "") _ _
    refine ⟨r, by rw [hrun]; exact hr, hhe, hrd, hsd, ?_⟩
    rw [hrun, finishRun_fetches]
    simp

/-- C3 witness: a concrete azure_api run with a failing cloud API completes
with the detail fields unset. -/
theorem run_cloud_error_degrades_witness :
    azure_api_details inputCloudError.collab.azCli sampleAzureHost = none ∧
    ∃ r, (hostSummaryRun inputCloudError).result = .ok r ∧
      r.host_entity = some sampleAzureHost ∧
      sampleAzureHost.azureDetails.resourceDetails = none ∧
      sampleAzureHost.azureDetails.subscriptionDetails = none ∧
      FetchEvent.azureApi ∈ (hostSummaryRun inputCloudError).fetches :=
  run_cloud_error_degrades inputCloudError sampleAzureHost rfl (by decide)
    rfl (by decide) rfl (by decide) rfl (by decide) rfl
    (Or.inl ⟨.cloudError "403", rfl⟩) rfl rfl

/-- C8: with the host name unresolved but the resolution not ambiguous,
`run` writes a warning, proceeds with the caller-supplied value as the
host name, still performs the requested alert and bookmark fetches, and
returns a full result. -/
theorem run_unresolved_name_proceeds (inp : RunInput) (v : String)
    (hvv : inp.value = some v)
    (hval : optStrFalsy inp.value = false)
    (hts : inp.timespan ≠ none)
    (hnoamb : inp.collab.verifyHostName.host_names = [])
    (hunres : optStrFalsy inp.collab.verifyHostName.host_name = true)
    (hhb : "heartbeat" ∉ inp.options)
    (hnet : "azure_net" ∉ inp.options)
    (hapi : "azure_api" ∉ inp.options)
    (halerts : "alerts" ∈ inp.options)
    (hbm : "bookmarks" ∈ inp.options) :
    unresolvedMsg v ∈ (hostSummaryRun inp).output ∧
    FetchEvent.relatedAlerts v ∈ (hostSummaryRun inp).fetches ∧
    FetchEvent.bookmarks v ∈ (hostSummaryRun inp).fetches ∧
    ∃ r, (hostSummaryRun inp).result = .ok r ∧
      r.host_entity = some (freshHost v) ∧
      r.related_alerts = some inp.collab.listRelatedAlerts ∧
      r.related_bookmarks = some inp.collab.listBookmarksForEntity := by
  have hvfal : optStrFalsy (some v) = false := by rw [← hvv]; exact hval
  have hrun : hostSummaryRun inp =
      finishRun inp (some (freshHost v)) v
        [FetchEvent.verifyHostName v] [unresolvedMsg v] := by
    simp [hostSummaryRun, hval, hvfal, hts, hnoamb, hunres, hhb, hnet,
      hapi, hvv]
  refine ⟨?_, ?_, ?_, ?_⟩
  · rw [hrun]
    exact finishRun_output_mem _ _ _ _ _ _ (by simp)
  · rw [hrun, finishRun_fetches, alertsStage_snd_of_mem _ _ _ halerts]
    simp
  · rw [hrun, finishRun_fetches, bookmarksStage_snd_of_mem _ _ _ hbm]
    simp
  · refine ⟨_, by rw [hrun]; exact finishRun_result inp _ v _ _, ?_, ?_, ?_⟩
    · rw [bookmarksStage_fst_host_entity, alertsStage_fst_host_entity]
    · rw [bookmarksStage_fst_related_alerts,
        alertsStage_fst_related_alerts_of_mem _ _ _ halerts]
    · rw [bookmarksStage_fst_related_bookmarks_of_mem _ _ _ hbm]

/-- C8 witness: a concrete unresolved-but-unambiguous run warns, fetches
alerts and bookmarks under the supplied value, and returns a full result. -/
theorem run_unresolved_name_proceeds_witness :
    unresolvedMsg "myhost" ∈ (hostSummaryRun inputUnresolved).output ∧
    FetchEvent.relatedAlerts "myhost" ∈
      (hostSummaryRun inputUnresolved).fetches ∧
    FetchEvent.bookmarks "myhost" ∈
      (hostSummaryRun inputUnresolved).fetches ∧
    ∃ r, (hostSummaryRun inputUnresolved).result = .ok r ∧
      r.host_entity = some (freshHost "myhost") ∧
      r.related_alerts = some inputUnresolved.collab.listRelatedAlerts ∧
      r.related_bookmarks =
        some inputUnresolved.collab.listBookmarksForEntity :=
  run_unresolved_name_proceeds inputUnresolved "myhost" rfl rfl (by decide)
    rfl rfl (by decide) (by decide) (by decide) (by decide) (by decide)

/-- C10: with the alerts option requested, the returned result's
`alert_timeline` is set exactly when the related-alerts fetch returns more
than one alert; with one alert (or none) the table is stored but the
timeline stays unset. -/
theorem run_alert_timeline_condition (inp : RunInput)
    (hval : optStrFalsy inp.value = false)
    (hts : inp.timespan ≠ none)
    (hnoamb : inp.collab.verifyHostName.host_names = [])
    (hhb : "heartbeat" ∉ inp.options)
    (hnet : "azure_net" ∉ inp.options)
    (hapi : "azure_api" ∉ inp.options)
    (halerts : "alerts" ∈ inp.options) :
    ∃ r, (hostSummaryRun inp).result = .ok r ∧
      r.related_alerts = some inp.collab.listRelatedAlerts ∧
      (r.alert_timeline.isSome = true ↔
        1 < inp.collab.listRelatedAlerts.rows.length) ∧
      (inp.collab.listRelatedAlerts.rows.length = 1 →
        r.alert_timeline = none) ∧
      (inp.collab.listRelatedAlerts.rows.length = 0 →
        r.alert_timeline = none) := by
  by_cases hres : optStrFalsy inp.collab.verifyHostName.host_name = true
  · have hrun : hostSummaryRun inp =
        finishRun inp (some (freshHost (inp.value.getD "")))
          (inp.value.getD "")
          [FetchEvent.verifyHostName (inp.value.getD "")]
          [unresolvedMsg (inp.value.getD "")] := by
      simp [hostSummaryRun, hval, hts, hnoamb, hres, hhb, hnet, hapi]
    obtain ⟨r, hr, _, h1, h2, h3, h4⟩ :=
      finishRun_alerts_fields inp (some (freshHost (inp.value.getD "")))
        (inp.value.getD "") _ _ halerts
    exact ⟨r, by rw [hrun]; exact hr, h1, h2, h3, h4⟩
  · have hres' : optStrFalsy inp.collab.verifyHostName.host_name = false := by
      simpa using hres
    have hrun : hostSummaryRun inp =
        finishRun inp
          (some (freshHost (inp.collab.verifyHostName.host_name.getD "")))
          (inp.collab.verifyHostName.host_name.getD "")
          [FetchEvent.verifyHostName (inp.value.getD "")] [] := by
      simp [hostSummaryRun, hval, hts, hnoamb, hres', hhb, hnet, hapi]
    obtain ⟨r, hr, _, h1, h2, h3, h4⟩ :=
      finishRun_alerts_fields inp
        (some (freshHost (inp.collab.verifyHostName.host_name.getD "")))
        (inp.collab.verifyHostName.host_name.getD "") _ _ halerts
    exact ⟨r, by rw [hrun]; exact hr, h1, h2, h3, h4⟩

/-- C10 witness: a concrete run with exactly one related alert stores the
one-row table and leaves the timeline unset. -/
theorem run_alert_timeline_condition_witness :
    ∃ r, (hostSummaryRun inputOneAlert).result = .ok r ∧
      r.related_alerts = some inputOneAlert.collab.listRelatedAlerts ∧
      (r.alert_timeline.isSome = true ↔
        1 < inputOneAlert.collab.listRelatedAlerts.rows.length) ∧
      (inputOneAlert.collab.listRelatedAlerts.rows.length = 1 →
        r.alert_timeline = none) ∧
      (inputOneAlert.collab.listRelatedAlerts.rows.length = 0 →
        r.alert_timeline = none) :=
  run_alert_timeline_condition inputOneAlert rfl (by decide) rfl
    (by decide) (by decide) (by decide) (by decide)

/-- C5: `match_terms` on the HostSummary descriptor with input
"host, linux, azure" returns a positive match with exactly 3 matched
terms. -/
theorem match_terms_host_linux_azure :
    match_terms hostSummaryDescriptor "host, linux, azure" = (true, 3) := by
  decide

/-- C6: for every query string none of whose normalized terms appears in any
registry descriptor's keyword list, `find` returns the empty sequence. -/
theorem find_no_matching_terms_empty (registry : List NotebookletDescriptor)
    (query : String)
    (h : ∀ t ∈ normalizeTokens query, ∀ d ∈ registry, t ∉ d.keywords) :
    find registry query = [] := by
  have hfilter :
      (registry.map fun d => (d, (match_terms d query).2)).filter
        (fun p => decide (1 ≤ p.2)) = [] := by
    rw [List.filter_eq_nil_iff]
    intro p hp
    rcases List.mem_map.mp hp with ⟨d, hd, rfl⟩
    have hcount : (match_terms d query).2 = 0 := by
      simp only [match_terms]
      rw [List.length_eq_zero, List.filter_eq_nil_iff]
      intro t ht
      simpa using h t ht d hd
    simp [hcount]
  simp only [find]
  rw [hfilter]
  rfl

/-- C6 witness: the concrete queries "monkey stew" and "" match nothing in a
registry holding the HostSummary descriptor, and `find` returns []. -/
theorem find_no_matching_terms_empty_witness :
    find [hostSummaryDescriptor] "monkey stew" = [] ∧
    find [hostSummaryDescriptor] "" = [] :=
  ⟨find_no_matching_terms_empty [hostSummaryDescriptor] "monkey stew"
      (by decide),
    find_no_matching_terms_empty [hostSummaryDescriptor] "" (by decide)⟩

/-- C7: for every registry and query, the `find` result is sorted by
match_count descending with ties broken by descriptor name ascending, and
contains only descriptors whose match_count is at least 1. -/
theorem find_sorted_and_positive (registry : List NotebookletDescriptor)
    (query : String) :
    List.Sorted searchRel (find registry query) ∧
    ∀ p ∈ find registry query, 1 ≤ p.2 := by
  constructor
  · exact List.sorted_insertionSort searchRel _
  · intro p hp
    have hp' := (List.mem_insertionSort searchRel).mp hp
    have := List.of_mem_filter hp'
    simpa using this

/-- C4: every (name, class) pair produced by discovery names a class that is
a strict (direct or transitive) subclass of the base notebooklet type and is
not the base class itself. -/
theorem discover_modules_only_strict_subclasses (table : List ScannedClass)
    (modules : List ScannedModule) (base : String) :
    ∀ entry ∈ discover_modules table modules base,
      isStrictSubclass table entry.2 base = true ∧ entry.2 ≠ base := by
  intro entry hentry
  simp only [discover_modules, List.mem_flatMap, List.mem_map,
    List.mem_filter] at hentry
  rcases hentry with ⟨m, _, c, ⟨_, hc⟩, rfl⟩
  simp only [Bool.and_eq_true, decide_eq_true_eq] at hc
  exact hc

/-- C4 witness: on a concrete scan (base class `Notebooklet`, one module
defining `HostSummary` below it), the discovered entry satisfies the
invariant. -/
theorem discover_modules_only_strict_subclasses_witness :
    ("host.HostSummary", "HostSummary") ∈
      discover_modules
        [⟨"Notebooklet", none⟩, ⟨"HostSummary", some "Notebooklet"⟩]
        [⟨"host", ["HostSummary"]⟩] "Notebooklet" ∧
    isStrictSubclass
        [⟨"Notebooklet", none⟩, ⟨"HostSummary", some "Notebooklet"⟩]
        "HostSummary" "Notebooklet" = true ∧
    ("HostSummary" : String) ≠ "Notebooklet" :=
  ⟨by decide,
    discover_modules_only_strict_subclasses
      [⟨"Notebooklet", none⟩, ⟨"HostSummary", some "Notebooklet"⟩]
      [⟨"host", ["HostSummary"]⟩] "Notebooklet"
      ("host.HostSummary", "HostSummary") (by decide)⟩

/-- C9: for every option name that is not a known option, `get_opt` and
`set_opt` both fail with a lookup error, and the failed set leaves the
configuration state unchanged. -/
theorem unknown_option_lookup_error (st : NBOptionState) (name : String)
    (value : Bool)
    (h : name ∉ (["verbose", "debug", "silent"] : List String)) :
    get_opt st name = .error (.keyError name) ∧
    (set_opt st name value).1 = .error (.keyError name) ∧
    (set_opt st name value).2 = st := by
  simp only [List.mem_cons, List.not_mem_nil, or_false, not_or] at h
  obtain ⟨h1, h2, h3⟩ := h
  simp [get_opt, set_opt, h1, h2, h3]

/-- C9 witness: the unknown name "no_option" (as in the test suite) fails on
both operations and leaves the state unchanged. -/
theorem unknown_option_lookup_error_witness :
    get_opt ⟨true, false, false⟩ "no_option" =
      .error (.keyError "no_option") ∧
    (set_opt ⟨true, false, false⟩ "no_option" true).1 =
      .error (.keyError "no_option") ∧
    (set_opt ⟨true, false, false⟩ "no_option" true).2 =
      ⟨true, false, false⟩ :=
  unknown_option_lookup_error ⟨true, false, false⟩ "no_option" true (by decide)

end Msticnb
